import Mathlib

/-!
# Verification of the checkbox-plus prompt core (src/index.js)

A shallow embedding of the `CheckboxPlusPrompt` class of `src/index.js`.
JavaScript objects become Lean structures, the mutable instance state of the
class becomes an explicit `PromptState` record, and the asynchronous source
promises become explicit resolution steps carrying the fetched choice list.
Promise object identity (the `self.lastSourcePromise !== sourcePromise` check
of the resolution handler) is modelled by tagging every issued promise with a
fresh number drawn from a counter kept in the state; two distinct promises
never share a tag, which is exactly what reference identity of two distinct
promise objects gives in the source.

lodash `_.isEqual` (deep structural equality on values) is modelled as
decidable equality `=` on the `Value` type below.
-/

namespace CheckboxPlus

/-- An opaque choice value, compared by deep (structural) equality, as lodash
`_.isEqual` does in the source.  `vundef` models JavaScript `undefined` (the
`value` of a separator entry); `vnameObj s` models a one-field object
`{name: s}` such as the name matchers that may appear in a `default` list. -/
inductive Value where
  | vundef : Value
  | vstr : String → Value
  | vnum : Int → Value
  | vnameObj : String → Value
deriving DecidableEq, Repr

/-- One entry of the choice list, after normalization by the host framework's
`Choices` constructor: a display `name`, an opaque `value`, a compact `short`
form, a `checked` flag, a `disabled` flag, and whether the entry is a
separator (`type === 'separator'` in the source; separators carry
`value = vundef`). -/
structure Choice where
  name : String
  value : Value
  short : String
  checked : Bool
  disabled : Bool
  isSeparator : Bool
deriving DecidableEq, Repr

/-- A `minimumChoices`/`maximumChoices` criterion as the caller supplies it:
either a bare number or a `[number, message]` pair
(`decomposeCriteria` in the source). -/
inductive Criteria where
  | num : Nat → Criteria
  | pair : Nat → String → Criteria
deriving DecidableEq, Repr

/-- The `source` option: a function returning a promise of choices
(`func`, whose results enter the model at promise-resolution steps), or a
static list of choices (`static_`, wrapped by `Promise.resolve` in the
source). -/
inductive SourceOpt where
  | func : SourceOpt
  | static_ : List Choice → SourceOpt
deriving DecidableEq, Repr

/-- The options record `this.opt` after the constructor has applied its
defaults.  The composed validator installed by `alterValidator` is kept out
of the state (it is the function `alterValidator` below applied to
`minimumChoices`, `maximumChoices` and the caller's validator). -/
structure Opts where
  source : SourceOpt
  searchable : Bool
  highlight : Bool
  minimumChoices : Option Criteria
  maximumChoices : Option Criteria
deriving DecidableEq, Repr

/-- The mutable instance state of `CheckboxPlusPrompt`.  `line` is the
readline buffer `this.rl.line` (read and trimmed by `executeSource`);
`nextPromiseId` is the ghost counter supplying a fresh identity for every
promise issued (see the file comment). -/
structure PromptState where
  opts : Opts
  pointer : Nat
  firstSourceLoading : Bool
  choices : List Choice
  checkedChoices : List Choice
  value : List Value
  lastQuery : Option String
  searching : Bool
  lastSourcePromise : Option Nat
  defaults : Option (List Value)
  line : String
  nextPromiseId : Nat
deriving DecidableEq, Repr

/-! ## Selection model: `toggleChoice` (src/index.js lines 489-507)

The source mutates `this.value`, `this.checkedChoices` and the shared
`choice.checked` flag.  The functional model returns the two updated lists
together with the updated choice record (the source pushes the very object
whose `checked` flag it just set). -/

/-- `toggleChoice(choice, checked)`: remove every entry of `value` deep-equal
to `choice.value` and every entry of `checkedChoices` whose value is
deep-equal to it, set the choice's `checked` flag, and when checking, append
the value and the (updated) choice. -/
def toggleChoice (value : List Value) (checkedChoices : List Choice)
    (choice : Choice) (checked : Bool) :
    List Value × List Choice × Choice :=
  let value' := value.filter (fun x => !decide (x = choice.value))
  let checked' := checkedChoices.filter (fun c => !decide (c.value = choice.value))
  let choice' := { choice with checked := checked }
  if checked then (value' ++ [choice'.value], checked' ++ [choice'], choice')
  else (value', checked', choice')

/-! ## The host framework's `Choices` accessors used by the handlers -/

/-- `Choices#realChoices`: the selectable entries — separators and disabled
entries excluded (host framework collaborator). -/
def realChoices (choices : List Choice) : List Choice :=
  choices.filter (fun c => !c.isSeparator && !c.disabled)

/-- `Choices#realLength`. -/
def realLength (choices : List Choice) : Nat :=
  (realChoices choices).length

/-- `Choices#getChoice(selector)`: the selector-th selectable entry. -/
def getChoice (choices : List Choice) (selector : Nat) : Option Choice :=
  (realChoices choices)[selector]?

/-- The index, in the full choice list, of the selector-th selectable entry
(used to write the mutated `checked` flag back into the set; the source does
this through shared object identity). -/
def realIndexIn (choices : List Choice) (selector : Nat) : Option Nat :=
  ((List.range choices.length).filter
    (fun i => match choices[i]? with
      | some c => !c.isSeparator && !c.disabled
      | none => false))[selector]?

/-- State-level toggle of the selectable choice at `selector`: runs
`toggleChoice` on the selection lists and writes the updated flag back into
the choice set (object mutation in the source). -/
def toggleChoiceAt (st : PromptState) (selector : Nat) (checked : Bool) :
    PromptState :=
  match realIndexIn st.choices selector, getChoice st.choices selector with
  | some i, some c =>
    let r := toggleChoice st.value st.checkedChoices c checked
    { st with value := r.1, checkedChoices := r.2.1,
              choices := st.choices.set i r.2.2 }
  | _, _ => st

/-! ## Key handlers (src/index.js lines 383-481) -/

/-- `onUpKey`: move the pointer up with wraparound. -/
def onUpKey (st : PromptState) : PromptState :=
  let len := realLength st.choices
  { st with pointer := if st.pointer > 0 then st.pointer - 1 else len - 1 }

/-- `onDownKey`: move the pointer down with wraparound. -/
def onDownKey (st : PromptState) : PromptState :=
  let len := realLength st.choices
  { st with pointer := if st.pointer < len - 1 then st.pointer + 1 else 0 }

/-- `onNumberKey(input)`: if the digit is within the selectable length, jump
the pointer there and toggle that choice (default toggle: negate its flag). -/
def onNumberKey (st : PromptState) (input : Nat) : PromptState :=
  if input ≤ realLength st.choices then
    let st := { st with pointer := input - 1 }
    match getChoice st.choices st.pointer with
    | some c => toggleChoiceAt st st.pointer (!c.checked)
    | none => st
  else st

/-- `onSpaceKey`: toggle the choice at the pointer; no-op when there is none. -/
def onSpaceKey (st : PromptState) : PromptState :=
  match getChoice st.choices st.pointer with
  | some c => toggleChoiceAt st st.pointer (!c.checked)
  | none => st

/-- `onAllKey`: `shouldBeChecked` is true iff some non-separator choice is
unchecked; every non-separator choice's `checked` flag is then set to it
directly — the selection lists `value`/`checkedChoices` are not touched. -/
def onAllKey (st : PromptState) : PromptState :=
  let shouldBeChecked :=
    st.choices.any (fun c => !c.isSeparator && !c.checked)
  let choices := st.choices.map
    (fun c => if !c.isSeparator then { c with checked := shouldBeChecked } else c)
  { st with choices := choices }

/-- `onInverseKey`: flip every non-separator choice's `checked` flag; the
selection lists are not touched. -/
def onInverseKey (st : PromptState) : PromptState :=
  let choices := st.choices.map
    (fun c => if !c.isSeparator then { c with checked := !c.checked } else c)
  { st with choices := choices }

/-! ## Validation gate (src/index.js lines 65-106) -/

/-- The result of a validator: `true` or a failure message. -/
inductive ValidateResult where
  | ok : ValidateResult
  | msg : String → ValidateResult
deriving DecidableEq, Repr

/-- Render a criterion number the way a JavaScript template literal renders
it: a number as its digits, `null` (an absent criterion) as `"null"`. -/
def criteriaNumText : Option Nat → String
  | some n => toString n
  | none => "null"

/-- `decomposeCriteria(criteria, defaultMessage)`: an array criterion is
returned as is; otherwise the bare value (a number, or `null` for the unset
maximum) is paired with the default message built from it. -/
def decomposeCriteria (criteria : Option Criteria)
    (defaultMessage : Option Nat → String) : Option Nat × String :=
  match criteria with
  | some (.pair n m) => (some n, m)
  | some (.num n) => (some n, defaultMessage (some n))
  | none => (none, defaultMessage none)

/-- The default message for the minimum bound
(`src/index.js` lines 83-85). -/
def minDefaultMessage (min : Option Nat) : String :=
  s!"You have to check at least {criteriaNumText min} choice(s)"

/-- The default message for the maximum bound exactly as the source builds
it (`src/index.js` lines 87-89): the source duplicates the minimum's
"at least" wording (its parameter is even named `min`). -/
def maxDefaultMessage (min : Option Nat) : String :=
  s!"You have to check at least {criteriaNumText min} choice(s)"

/-- JavaScript truthiness of a decomposed bound: `null` and `0` are falsy
(`if (min && ...)` in the source). -/
def numTruthy : Option Nat → Bool
  | some n => n ≠ 0
  | none => false

/-- The validator installed by `alterValidator`: the min check, then the max
check, then the caller's validator if any, then `true`.  `optValidator` is
`this.opt.validate` as the caller supplied it. -/
def alterValidator (minC maxC : Option Criteria)
    (optValidator : Option (List Value → ValidateResult))
    (answer : List Value) : ValidateResult :=
  let minD := decomposeCriteria minC minDefaultMessage
  let maxD := decomposeCriteria maxC maxDefaultMessage
  if numTruthy minD.1 && decide (answer.length < minD.1.getD 0) then
    .msg minD.2
  else if numTruthy maxD.1 && decide (answer.length > maxD.1.getD 0) then
    .msg maxD.2
  else
    match optValidator with
    | some f => f answer
    | none => .ok

/-! ## Constructor (src/index.js lines 31-63) -/

/-- The `questions` object as the caller supplies it: every option may be
absent (`undefined`). -/
structure RawOpts where
  source : Option SourceOpt
  highlight : Option Bool
  searchable : Option Bool
  defaults : Option (List Value)
  minimumChoices : Option Criteria
  maximumChoices : Option Criteria
deriving DecidableEq, Repr

/-- The constructor: apply the option defaults (`?? false`, `?? null`,
`minimumChoices ?? 0`), raise the missing-parameter error when `source` is
absent (`this.throwParamError('source')`, which throws), then initialize the
instance state.  `this.default` is moved from the options into the state and
`this.opt.default` is nulled. -/
def mkPrompt (raw : RawOpts) : Except String PromptState :=
  let highlight := raw.highlight.getD false
  let searchable := raw.searchable.getD false
  let defaults := raw.defaults
  let minimumChoices := some (raw.minimumChoices.getD (.num 0))
  let maximumChoices := raw.maximumChoices
  match raw.source with
  | none => .error "source"
  | some src =>
    .ok { opts := { source := src, searchable := searchable,
                    highlight := highlight,
                    minimumChoices := minimumChoices,
                    maximumChoices := maximumChoices },
          pointer := 0, firstSourceLoading := true, choices := [],
          checkedChoices := [], value := [], lastQuery := none,
          searching := false, lastSourcePromise := none,
          defaults := defaults, line := "", nextPromiseId := 0 }

/-- lodash `_.trim(string)`: strip leading and trailing whitespace.  Defined
structurally over the character list so that it evaluates inside the kernel
(`String.trim` is defined by well-founded recursion and does not reduce). -/
def jsTrim (s : String) : String :=
  ⟨((s.data.dropWhile Char.isWhitespace).reverse.dropWhile Char.isWhitespace).reverse⟩

/-! ## Source query pipeline (src/index.js lines 179-251)

`executeSource` runs synchronously up to issuing the promise; the promise's
`.then` handler is `resolveSource` below, invoked with the promise's tag and
the choice list it resolved with. -/

/-- `executeSource()`: trim the readline buffer; if it equals `lastQuery`,
return without issuing anything; in search mode a non-function source is an
error (`throw new Error(...)`); otherwise record the query, tag a fresh
promise as the current one (`this.lastSourcePromise = sourcePromise`) and
set `searching`.  Returns the updated state and the tag of the issued
promise, `none` when the call was the no-op. -/
def executeSource (st : PromptState) :
    Except String (PromptState × Option Nat) :=
  let line := jsTrim st.line
  if some line = st.lastQuery then
    .ok ({ st with line := line }, none)
  else if st.opts.searchable && !(st.opts.source matches .func) then
    .error "To be searchable, the source must be a function returing a promise"
  else
    let pid := st.nextPromiseId
    .ok ({ st with line := line, lastQuery := some line,
                   lastSourcePromise := some pid, searching := true,
                   nextPromiseId := pid + 1 }, some pid)

/-- The body of the `forEach` over the freshly fetched choices
(src/index.js lines 223-238), one choice: toggle it to whether its value is
already among the selected `value`s, and, while a default list is still
pending, toggle it to checked when some default entry deep-equals its value
(`_.findIndex(self.default, _.isEqual.bind(null, choice.value)) != -1`). -/
def processOneChoice (defaults : Option (List Value))
    (value : List Value) (checkedChoices : List Choice) (c : Choice) :
    List Value × List Choice × Choice :=
  let chk := value.any (fun v => decide (v = c.value))
  let r1 := toggleChoice value checkedChoices c chk
  match defaults with
  | some ds =>
    if ds.any (fun d => decide (d = c.value)) then
      toggleChoice r1.1 r1.2.1 r1.2.2 true
    else r1
  | none => r1

/-- The whole `forEach` loop: fold `processOneChoice` over the fetched list,
threading the selection lists and collecting the processed choices (their
final `checked` flags). -/
def processChoices (defaults : Option (List Value))
    (value : List Value) (checkedChoices : List Choice) :
    List Choice → List Choice × List Value × List Choice
  | [] => ([], value, checkedChoices)
  | c :: rest =>
    let r1 := processOneChoice defaults value checkedChoices c
    let r2 := processChoices defaults r1.1 r1.2.1 rest
    (r1.2.2 :: r2.1, r2.2.1, r2.2.2)

/-- The promise's `.then` handler (src/index.js lines 209-247), invoked when
the promise tagged `pid` resolves with `fetched`: if it is no longer the
recorded current promise the data is discarded unconditionally; otherwise
clear `searching`, replace the choice set, reconcile the selection and the
pending defaults, reset the pointer, consume the defaults and clear
`firstSourceLoading`. -/
def resolveSource (st : PromptState) (pid : Nat) (fetched : List Choice) :
    PromptState :=
  if st.lastSourcePromise ≠ some pid then st
  else
    let (cs, v, cc) := processChoices st.defaults st.value st.checkedChoices fetched
    { st with searching := false, choices := cs, value := v,
              checkedChoices := cc, pointer := 0, defaults := none,
              firstSourceLoading := false }

/-! ## Spec-side description of the validation gate (for the refinement
claim about check order) -/

/-- The numeric bound a criterion decomposes to, independent of the message
(`decomposeCriteria(...).0`). -/
def criteriaBound : Option Criteria → Option Nat
  | some (.pair n _) => some n
  | some (.num n) => some n
  | none => none

/-- The bound a criterion effectively configures: absent criteria configure
nothing, and a bound of `0` counts as not configured — the validator tests
bounds with JavaScript truthiness, under which `0` is falsy (see the
zero-bound claim). -/
def configuredBound (criteria : Option Criteria) : Option Nat :=
  match criteriaBound criteria with
  | some n => if n = 0 then none else some n
  | none => none

/-- The validation gate as §4.3 of the spec words it: if `min` is set and
the answer is shorter, fail with the min message; else if `max` is set and
the answer is longer, fail with the max message; else the caller-supplied
validator's return value is authoritative; else succeed.  Written from the
spec's words, to be compared with `alterValidator`. -/
def specValidate (min : Option Nat) (minMessage : String)
    (max : Option Nat) (maxMessage : String)
    (custom : Option (List Value → ValidateResult))
    (answer : List Value) : ValidateResult :=
  if min.isSome && decide (answer.length < min.getD 0) then .msg minMessage
  else if max.isSome && decide (answer.length > max.getD 0) then .msg maxMessage
  else
    match custom with
    | some f => f answer
    | none => .ok

/-! ## Concrete inputs for the witnesses and counterexamples below -/

/-- A plain non-separator choice used by several witnesses. -/
def mkPlainChoice (name : String) (v : Value) (checked : Bool) : Choice :=
  { name := name, value := v, short := name, checked := checked,
    disabled := false, isSeparator := false }

def w1Opts : Opts :=
  { source := .func, searchable := true, highlight := false,
    minimumChoices := some (.num 0), maximumChoices := none }

def w1St : PromptState :=
  { opts := w1Opts, pointer := 0, firstSourceLoading := true, choices := [],
    checkedChoices := [], value := [], lastQuery := none, searching := false,
    lastSourcePromise := none, defaults := none, line := "a",
    nextPromiseId := 0 }

def w1StA : PromptState :=
  { w1St with lastQuery := some "a", lastSourcePromise := some 0,
              searching := true, nextPromiseId := 1 }

def w1StB : PromptState :=
  { w1StA with line := "b", lastQuery := some "b", lastSourcePromise := some 1,
               searching := true, nextPromiseId := 2 }

def w1CA : List Choice := [mkPlainChoice "A" (.vstr "A") false]
def w1CB : List Choice := [mkPlainChoice "B" (.vstr "B") false]

/-- A state holding one unchecked selectable choice and an empty selection:
the select-all counterexample input. -/
def exAllSt : PromptState :=
  { w1St with opts := { w1Opts with searchable := false },
              choices := [mkPlainChoice "a" (.vstr "a") false],
              firstSourceLoading := false }

/-- The value and choice of the toggle-twice counterexample: a selection
state holding the same value twice. -/
def c8v : Value := .vstr "v"

def c8c : Choice := mkPlainChoice "x" c8v true

/-- Toggling the same choice twice in a row (the second call receives the
choice object the first call returned, as the source's shared-object
mutation does): first to `chk1`, then to `chk2`. -/
def toggleTwice (value : List Value) (cc : List Choice) (c : Choice)
    (chk1 chk2 : Bool) : List Value × List Choice × Choice :=
  let r1 := toggleChoice value cc c chk1
  toggleChoice r1.1 r1.2.1 r1.2.2 chk2

/-- The spec's defaults example: a plain value and a `{name}` matcher. -/
def c5Defaults : List Value := [.vstr "a", .vnameObj "B-label"]

/-- The spec's defaults example fetch: choices with values `"a"` and `"b"`,
the second one named `"B-label"`. -/
def c5Fetched : List Choice :=
  [mkPlainChoice "a" (.vstr "a") false,
   mkPlainChoice "B-label" (.vstr "b") false]

/-- A fresh prompt state whose pending defaults are the spec's example list
and whose current (first) fetch is promise `0`. -/
def c5St : PromptState :=
  { w1St with defaults := some c5Defaults, lastQuery := some "",
              lastSourcePromise := some 0, searching := true, line := "",
              nextPromiseId := 1 }

/-- A questions object with no `source` option at all. -/
def w9Raw : RawOpts :=
  { source := none, highlight := none, searchable := none, defaults := none,
    minimumChoices := none, maximumChoices := none }

/-- A state configured searchable with a static (non-function) source. -/
def w9St : PromptState :=
  { w1St with opts := { w1Opts with source := .static_ [] } }

/-- A questions object leaving `minimumChoices` unset. -/
def w10Raw : RawOpts :=
  { source := some .func, highlight := none, searchable := none,
    defaults := none, minimumChoices := none, maximumChoices := none }

/-- The state the constructor builds from `w10Raw`. -/
def w10St : PromptState :=
  { opts := { source := .func, searchable := false, highlight := false,
              minimumChoices := some (.num 0), maximumChoices := none },
    pointer := 0, firstSourceLoading := true, choices := [],
    checkedChoices := [], value := [], lastQuery := none, searching := false,
    lastSourcePromise := none, defaults := none, line := "",
    nextPromiseId := 0 }

/-- A state after a first fetch: defaults already consumed, one value
selected, promise `0` current. -/
def w6St : PromptState :=
  { w1St with lastQuery := some "a", lastSourcePromise := some 0,
              searching := true, nextPromiseId := 1, line := "a",
              defaults := none,
              value := [.vstr "A"],
              checkedChoices := [mkPlainChoice "A" (.vstr "A") true] }

/-! ## Helper lemmas -/

/-- Inverting a call to `executeSource` that issued a promise: the issued
tag is the current counter value, the new state records that promise as the
sole current one, bumps the counter, and records the trimmed query. -/
theorem executeSource_issued {st st' : PromptState} {p : Nat}
    (h : executeSource st = .ok (st', some p)) :
    p = st.nextPromiseId ∧ st'.lastSourcePromise = some p ∧
    st'.nextPromiseId = p + 1 ∧ st'.lastQuery = some (jsTrim st.line) := by
  unfold executeSource at h
  by_cases h1 : some (jsTrim st.line) = st.lastQuery
  · simp [h1] at h
  · by_cases h2 : (st.opts.searchable && !(st.opts.source matches .func)) = true
    · simp [h1, h2] at h
    · simp [h1, h2] at h
      obtain ⟨h3, h4⟩ := h
      subst h3 h4
      simp

/-- A resolution whose promise is no longer the recorded current one leaves
the state untouched. -/
theorem resolveSource_stale {st : PromptState} {p : Nat} (c : List Choice)
    (h : st.lastSourcePromise ≠ some p) :
    resolveSource st p c = st := by
  unfold resolveSource
  simp [h]

/-- Resolving a fetch never changes which promise is recorded as current. -/
theorem resolveSource_lastSourcePromise (st : PromptState) (p : Nat)
    (c : List Choice) :
    (resolveSource st p c).lastSourcePromise = st.lastSourcePromise := by
  unfold resolveSource
  split <;> rfl

/-! ## C1 -/

/-- C1: for queries A then B issued through `executeSource` with B issued
before A's promise resolves, A's result is discarded whenever it arrives:
whether A's promise resolves before or after B's, the final state is exactly
the state obtained from B's resolution alone, so the choice set, the
selection state and the pointer reflect only B's result. -/
theorem stale_fetch_discarded (st stA stB : PromptState) (lineB : String)
    (a b : Nat) (cA cB : List Choice)
    (hA : executeSource st = .ok (stA, some a))
    (hB : executeSource { stA with line := lineB } = .ok (stB, some b)) :
    resolveSource (resolveSource stB a cA) b cB = resolveSource stB b cB ∧
    resolveSource (resolveSource stB b cB) a cA = resolveSource stB b cB := by
  obtain ⟨ha1, ha2, ha3, _⟩ := executeSource_issued hA
  obtain ⟨hb1, hb2, hb3, _⟩ := executeSource_issued hB
  have hab : a ≠ b := by
    simp only [PromptState.mk.injEq] at hb1
    omega
  have h1 : resolveSource stB a cA = stB :=
    resolveSource_stale cA (by rw [hb2]; simp [Ne.symm hab])
  have h2 : resolveSource (resolveSource stB b cB) a cA = resolveSource stB b cB :=
    resolveSource_stale cA
      (by rw [resolveSource_lastSourcePromise, hb2]; simp [Ne.symm hab])
  exact ⟨by rw [h1], h2⟩

/-- Witness for C1 at a concrete run: query `"a"` issues promise `0`, query
`"b"` issued on top of it issues promise `1`, and both resolution orders end
in the state of B's resolution alone. -/
theorem stale_fetch_discarded_witness :
    executeSource w1St = .ok (w1StA, some 0) ∧
    executeSource { w1StA with line := "b" } = .ok (w1StB, some 1) ∧
    resolveSource (resolveSource w1StB 0 w1CA) 1 w1CB = resolveSource w1StB 1 w1CB ∧
    resolveSource (resolveSource w1StB 1 w1CB) 0 w1CA = resolveSource w1StB 1 w1CB := by
  refine ⟨by rfl, by rfl, ?_⟩
  exact stale_fetch_discarded w1St w1StA w1StB "b" 0 1 w1CA w1CB (by rfl) (by rfl)

/-! ## C2 -/

/-- `toggleChoice` keeps `value` the list of values of `checkedChoices`,
entry by entry. -/
theorem toggleChoice_map_value {value : List Value} {cc : List Choice}
    (c : Choice) (chk : Bool) (h : value = cc.map Choice.value) :
    (toggleChoice value cc c chk).1 =
      ((toggleChoice value cc c chk).2.1).map Choice.value := by
  subst h
  unfold toggleChoice
  cases chk <;> simp [List.filter_map, Function.comp_def]

/-- One step of the fetch-reconciliation loop preserves the `value` /
`checkedChoices` correspondence. -/
theorem processOneChoice_map_value {value : List Value} {cc : List Choice}
    (defaults : Option (List Value)) (c : Choice)
    (h : value = cc.map Choice.value) :
    (processOneChoice defaults value cc c).1 =
      ((processOneChoice defaults value cc c).2.1).map Choice.value := by
  unfold processOneChoice
  cases defaults with
  | none => exact toggleChoice_map_value c _ h
  | some ds =>
    by_cases hd : ds.any (fun d => decide (d = c.value)) = true
    · simp only [hd, if_true]
      exact toggleChoice_map_value _ true (toggleChoice_map_value c _ h)
    · simp only [hd, if_false]
      exact toggleChoice_map_value c _ h

/-- The whole fetch-reconciliation loop preserves the `value` /
`checkedChoices` correspondence. -/
theorem processChoices_map_value (defaults : Option (List Value))
    (fetched : List Choice) :
    ∀ (value : List Value) (cc : List Choice),
      value = cc.map Choice.value →
      (processChoices defaults value cc fetched).2.1 =
        ((processChoices defaults value cc fetched).2.2).map Choice.value := by
  induction fetched with
  | nil => intro value cc h; simpa [processChoices] using h
  | cons c rest ih =>
    intro value cc h
    simp only [processChoices]
    exact ih _ _ (processOneChoice_map_value defaults c h)

/-- The state-level toggle preserves the `value` / `checkedChoices`
correspondence. -/
theorem toggleChoiceAt_map_value (st : PromptState) (sel : Nat) (chk : Bool)
    (h : st.value = st.checkedChoices.map Choice.value) :
    (toggleChoiceAt st sel chk).value =
      (toggleChoiceAt st sel chk).checkedChoices.map Choice.value := by
  unfold toggleChoiceAt
  split
  · exact toggleChoice_map_value _ chk h
  · exact h

/-- C2, counterexample: as stated the claim is false — after `onAllKey` on a
state with one unchecked choice and an empty selection, the choice's
`checked` flag is true yet `checkedChoices` has no entry for it, because the
select-all bulk operation mutates only the flags and bypasses the selection
lists. -/
theorem allKey_flag_correspondence_counterexample :
    ¬ (∀ c ∈ (onAllKey exAllSt).choices, c.checked = true →
        ∃ e ∈ (onAllKey exAllSt).checkedChoices, e.value = c.value) := by
  decide

/-- C2, amended: after every operation (toggle via space, numeric jump,
select-all, invert, fetch reconciliation), `value` and `checkedChoices`
remain in 1:1 correspondence — `value` is entry-for-entry the list of the
`value` fields of `checkedChoices`.  The further correspondence with the
`checked` flags inside the choice set does not survive select-all/invert
(see the counterexample). -/
theorem selection_lists_correspondence (st : PromptState)
    (h : st.value = st.checkedChoices.map Choice.value) :
    ((onSpaceKey st).value = (onSpaceKey st).checkedChoices.map Choice.value) ∧
    (∀ n, (onNumberKey st n).value =
      (onNumberKey st n).checkedChoices.map Choice.value) ∧
    ((onAllKey st).value = (onAllKey st).checkedChoices.map Choice.value) ∧
    ((onInverseKey st).value =
      (onInverseKey st).checkedChoices.map Choice.value) ∧
    (∀ pid fetched, (resolveSource st pid fetched).value =
      (resolveSource st pid fetched).checkedChoices.map Choice.value) := by
  refine ⟨?_, ?_, h, h, ?_⟩
  · unfold onSpaceKey
    split
    · exact toggleChoiceAt_map_value _ _ _ h
    · exact h
  · intro n
    unfold onNumberKey
    split
    · dsimp only
      split
      · exact toggleChoiceAt_map_value _ _ _ h
      · exact h
    · exact h
  · intro pid fetched
    unfold resolveSource
    split
    · exact h
    · exact processChoices_map_value _ fetched _ _ h

/-- Witness for the amended C2 at a concrete state. -/
theorem selection_lists_correspondence_witness :
    exAllSt.value = exAllSt.checkedChoices.map Choice.value ∧
    (onSpaceKey exAllSt).value =
      (onSpaceKey exAllSt).checkedChoices.map Choice.value :=
  ⟨by decide, (selection_lists_correspondence exAllSt (by decide)).1⟩

/-! ## C3 -/

/-- The bound component of `decomposeCriteria` does not depend on the
message builder. -/
theorem decomposeCriteria_fst (c : Option Criteria) (f : Option Nat → String) :
    (decomposeCriteria c f).1 = criteriaBound c := by
  rcases c with _ | c
  · rfl
  · cases c <;> rfl

/-- JavaScript truthiness of a decomposed bound agrees with presence of the
effectively configured bound. -/
theorem numTruthy_configured (c : Option Criteria) :
    numTruthy (criteriaBound c) = (configuredBound c).isSome := by
  rcases c with _ | c
  · rfl
  · cases c with
    | num n => cases n <;> simp [criteriaBound, configuredBound, numTruthy]
    | pair n m => cases n <;> simp [criteriaBound, configuredBound, numTruthy]

/-- The decomposed bound and the effectively configured bound give the same
number (absent bounds and zero bounds both read as `0`). -/
theorem getD_configured (c : Option Criteria) :
    (criteriaBound c).getD 0 = (configuredBound c).getD 0 := by
  rcases c with _ | c
  · rfl
  · cases c with
    | num n => cases n <;> simp [criteriaBound, configuredBound]
    | pair n m => cases n <;> simp [criteriaBound, configuredBound]

/-- C3: the validator installed by `alterValidator` is exactly the gate the
spec describes — it fails with the min message iff a minimum bound is
configured and the answer is shorter, otherwise fails with the max message
iff a maximum bound is configured and the answer is longer, otherwise
returns the caller-supplied validator's result when one exists, otherwise
true: strictly min, then max, then the custom validator, which is wrapped
and never replaced.  (Per the zero-bound behavior established separately, a
bound of `0` counts as not configured: the source tests bounds with
JavaScript truthiness.) -/
theorem validator_wraps_in_order (minC maxC : Option Criteria)
    (optValidator : Option (List Value → ValidateResult))
    (answer : List Value) :
    alterValidator minC maxC optValidator answer =
      specValidate (configuredBound minC)
        (decomposeCriteria minC minDefaultMessage).2
        (configuredBound maxC)
        (decomposeCriteria maxC maxDefaultMessage).2
        optValidator answer := by
  unfold alterValidator specValidate
  simp only []
  rw [decomposeCriteria_fst, decomposeCriteria_fst,
      numTruthy_configured, numTruthy_configured,
      getD_configured, getD_configured]

/-! ## C4 -/

/-- C4: the claim is right and the code has a slip.  With
`maximumChoices = 2` (a bare integer, no custom message) and a three-value
submission, the synthesized failure message is the "at least" form — the
source duplicates the minimum's default message for the maximum bound (the
message builder's parameter is even named `min` there) — whereas the spec
promises the distinct "at most" form. -/
theorem max_default_message_is_at_least_form :
    alterValidator none (some (.num 2)) none
        [.vstr "a", .vstr "b", .vstr "c"] =
      .msg "You have to check at least 2 choice(s)" ∧
    alterValidator none (some (.num 2)) none
        [.vstr "a", .vstr "b", .vstr "c"] ≠
      .msg "You have to check at most 2 choice(s)" := by
  constructor
  · rfl
  · decide

/-! ## C5 -/

/-- C5: the claim matches the spec and the repository's own example (which
passes `{name: 'black'}` as a default), but the code compares each default
entry against the choice's *value* only, with deep equality
(`_.isEqual.bind(null, choice.value)`): at the spec's example input —
defaults `["a", {name: "B-label"}]`, first fetch returning choices with
values `"a"` and `"b"` (the second named `"B-label"`) — only the `"a"`
choice is marked checked; the `{name}` matcher never matches. -/
theorem name_matcher_default_not_applied :
    (resolveSource c5St 0 c5Fetched).choices.map Choice.checked = [true, false] ∧
    (resolveSource c5St 0 c5Fetched).value = [.vstr "a"] := by
  decide

/-! ## C6 -/

/-- Scanning a list for an entry deep-equal to `x` is deciding membership. -/
theorem any_eq_decide_mem (l : List Value) (x : Value) :
    l.any (fun v => decide (v = x)) = decide (x ∈ l) := by
  induction l with
  | nil => rfl
  | cons a l ih =>
    simp only [List.any_cons, ih, List.mem_cons]
    by_cases h1 : x = a
    · simp [h1]
    · have h1' : ¬ a = x := fun h => h1 h.symm
      simp [h1, h1']

/-- The choice record `toggleChoice` returns is the input choice with its
`checked` flag set. -/
theorem toggleChoice_snd_snd (value : List Value) (cc : List Choice)
    (c : Choice) (chk : Bool) :
    (toggleChoice value cc c chk).2.2 = { c with checked := chk } := by
  unfold toggleChoice
  cases chk <;> rfl

/-- Toggling a choice to its own membership status leaves the membership
predicate of `value` unchanged. -/
theorem toggleChoice_mem_value_of_mem (value : List Value) (cc : List Choice)
    (c : Choice) (w : Value) :
    w ∈ (toggleChoice value cc c (decide (c.value ∈ value))).1 ↔ w ∈ value := by
  unfold toggleChoice
  by_cases h : c.value ∈ value
  · simp only [h, decide_eq_true_eq, if_pos, List.mem_append, List.mem_filter,
      List.mem_singleton, decide_True]
    by_cases hw : w = c.value
    · subst hw; simp [h]
    · simp [hw]
  · have hd : decide (c.value ∈ value) = false := decide_eq_false h
    simp only [hd, Bool.false_eq_true, if_false]
    rw [List.filter_eq_self.mpr]
    intro a ha
    simp only [Bool.not_eq_eq_eq_not, Bool.not_true, decide_eq_false_iff_not]
    intro heq
    exact h (heq ▸ ha)

/-- With no pending defaults, one loop step is just the membership toggle. -/
theorem processOneChoice_none (value : List Value) (cc : List Choice)
    (c : Choice) :
    processOneChoice none value cc c =
      toggleChoice value cc c (decide (c.value ∈ value)) := by
  unfold processOneChoice
  rw [any_eq_decide_mem]

/-- With no pending defaults, reconciling a fetch never changes which values
are selected. -/
theorem processChoices_none_mem (fetched : List Choice) :
    ∀ (value : List Value) (cc : List Choice) (w : Value),
      (w ∈ (processChoices none value cc fetched).2.1 ↔ w ∈ value) := by
  induction fetched with
  | nil => intro value cc w; simp [processChoices]
  | cons c rest ih =>
    intro value cc w
    simp only [processChoices, processOneChoice_none]
    rw [ih]
    exact toggleChoice_mem_value_of_mem value cc c w

/-- With no pending defaults, a reconciled choice ends up checked exactly
when its value is in the selection that existed when the fetch resolved. -/
theorem processChoices_none_checked (fetched : List Choice) :
    ∀ (value : List Value) (cc : List Choice),
      ∀ c ∈ (processChoices none value cc fetched).1,
        c.checked = decide (c.value ∈ value) := by
  induction fetched with
  | nil => intro value cc c hc; simp [processChoices] at hc
  | cons c0 rest ih =>
    intro value cc c hc
    simp only [processChoices, processOneChoice_none, List.mem_cons] at hc
    rcases hc with rfl | hc
    · rw [toggleChoice_snd_snd]
    · have h1 := ih _ _ c hc
      rw [h1]
      apply decide_eq_decide.mpr
      exact toggleChoice_mem_value_of_mem value cc c0 c.value

/-- C6: defaults are consumed exactly once.  Whenever the resolving promise
is still the current one, the pending defaults are cleared by the
resolution; and any fetch that resolves after that (pending defaults
`none`) marks a choice checked iff its value is in the current selection —
so a previously-unchecked choice matching an already-consumed default stays
unchecked. -/
theorem defaults_consumed_once (st : PromptState) (pid : Nat)
    (fetched : List Choice) (hcur : st.lastSourcePromise = some pid) :
    (resolveSource st pid fetched).defaults = none ∧
    (st.defaults = none →
      ∀ c ∈ (resolveSource st pid fetched).choices,
        c.checked = decide (c.value ∈ st.value)) := by
  unfold resolveSource
  have hne : ¬ st.lastSourcePromise ≠ some pid := by simp [hcur]
  rw [if_neg hne]
  refine ⟨rfl, ?_⟩
  intro hd
  rw [hd]
  exact processChoices_none_checked fetched st.value st.checkedChoices

/-- Witness for C6 at a concrete state: the current promise's resolution
clears the pending defaults. -/
theorem defaults_consumed_once_witness :
    w6St.lastSourcePromise = some 0 ∧
    (resolveSource w6St 0 w1CA).defaults = none := by
  refine ⟨by decide, ?_⟩
  exact (defaults_consumed_once w6St 0 w1CA (by decide)).1

/-! ## C7 -/

/-- When the trimmed readline buffer equals the recorded `lastQuery`,
`executeSource` returns at once: no promise is issued and nothing but the
trimmed buffer changes. -/
theorem executeSource_noop_lemma (st : PromptState)
    (h : some (jsTrim st.line) = st.lastQuery) :
    executeSource st = .ok ({ st with line := jsTrim st.line }, none) := by
  unfold executeSource
  rw [if_pos h]

/-- C7: the no-op rule and its dedup consequence.  A call whose trimmed
input line equals the stored `lastQuery` returns immediately with no fetch
issued and the state unchanged apart from the trimmed buffer (choices,
selection, pointer and searching flag untouched); consequently, after a call
that issued a fetch, re-issuing any input line with the same trimmed text
issues no second fetch. -/
theorem repeated_query_single_fetch (st st1 : PromptState) (pid : Nat)
    (otherLine : String) :
    (some (jsTrim st.line) = st.lastQuery →
      executeSource st = .ok ({ st with line := jsTrim st.line }, none)) ∧
    (executeSource st = .ok (st1, some pid) →
     jsTrim otherLine = jsTrim st.line →
      executeSource { st1 with line := otherLine } =
        .ok ({ st1 with line := jsTrim otherLine }, none)) := by
  refine ⟨executeSource_noop_lemma st, ?_⟩
  intro h1 h2
  obtain ⟨_, _, _, hq⟩ := executeSource_issued h1
  have hmatch : some (jsTrim ({ st1 with line := otherLine } : PromptState).line) =
      ({ st1 with line := otherLine } : PromptState).lastQuery := by
    simp [hq, h2]
  exact executeSource_noop_lemma { st1 with line := otherLine } hmatch

/-- Witness for C7: issuing `"a"` then `"a"` again fetches exactly once. -/
theorem repeated_query_single_fetch_witness :
    executeSource w1St = .ok (w1StA, some 0) ∧
    executeSource { w1StA with line := "a" } =
      .ok ({ w1StA with line := "a" }, none) := by
  refine ⟨by rfl, ?_⟩
  exact (repeated_query_single_fetch w1St w1StA 0 "a").2 (by rfl) (by rfl)

/-! ## C8 -/

/-- C8, counterexample: as stated — over *every* starting selection state —
the claim is false: starting from a selection holding the value `"v"`
twice, toggling the checked choice off and back on leaves a single entry,
which is not a permutation of the original pair. -/
theorem toggle_twice_not_restoring_counterexample :
    ¬ ((toggleTwice [c8v, c8v] [c8c, c8c] c8c false true).1.Perm
        [c8v, c8v]) := by
  decide

/-- Unchecked round trip: toggling a choice absent from the selection on and
then off restores `value` and `checkedChoices` exactly. -/
theorem toggle_round_trip_A (value : List Value) (cc : List Choice)
    (c : Choice) (h1 : c.value ∉ value) (h2 : ∀ e ∈ cc, e.value ≠ c.value) :
    (toggleTwice value cc c true false).1 = value ∧
    (toggleTwice value cc c true false).2.1 = cc := by
  have hv : value.filter (fun x => !decide (x = c.value)) = value := by
    apply List.filter_eq_self.mpr
    intro a ha
    simp only [Bool.not_eq_eq_eq_not, Bool.not_true, decide_eq_false_iff_not]
    intro heq
    exact h1 (heq ▸ ha)
  have hcc : cc.filter (fun e => !decide (e.value = c.value)) = cc := by
    apply List.filter_eq_self.mpr
    intro e he
    simp only [Bool.not_eq_eq_eq_not, Bool.not_true, decide_eq_false_iff_not]
    exact h2 e he
  unfold toggleTwice toggleChoice
  simp only [if_true, if_false, Bool.false_eq_true]
  simp [hv, hcc, List.filter_append]

/-- Checked round trip: when the selection holds exactly one entry
deep-equal to the choice's value and `checkedChoices` holds exactly the
(checked) choice itself, toggling off and back on restores both lists up to
order. -/
theorem toggle_round_trip_B (value : List Value) (cc : List Choice)
    (c : Choice)
    (h1 : value.filter (fun x => decide (x = c.value)) = [c.value])
    (h2 : cc.filter (fun e => decide (e.value = c.value)) = [c])
    (h3 : c.checked = true) :
    (toggleTwice value cc c false true).1.Perm value ∧
    (toggleTwice value cc c false true).2.1.Perm cc := by
  have hceq : ({ c with checked := true } : Choice) = c := by
    cases c
    simp_all
  have hvperm : List.Perm
      (value.filter (fun x => !decide (x = c.value)) ++ [c.value]) value := by
    have hap := List.filter_append_perm (fun x => decide (x = c.value)) value
    rw [h1] at hap
    exact List.Perm.trans List.perm_append_comm hap
  have hcperm : List.Perm
      (cc.filter (fun e => !decide (e.value = c.value)) ++ [c]) cc := by
    have hap := List.filter_append_perm (fun e => decide (e.value = c.value)) cc
    rw [h2] at hap
    exact List.Perm.trans List.perm_append_comm hap
  have hff : ∀ (l : List Value),
      (l.filter (fun x => !decide (x = c.value))).filter
        (fun x => !decide (x = c.value)) =
      l.filter (fun x => !decide (x = c.value)) := by
    intro l
    rw [List.filter_filter]
    simp
  have hffc : ∀ (l : List Choice),
      (l.filter (fun e => !decide (e.value = c.value))).filter
        (fun e => !decide (e.value = c.value)) =
      l.filter (fun e => !decide (e.value = c.value)) := by
    intro l
    rw [List.filter_filter]
    simp
  constructor
  · show (toggleTwice value cc c false true).1.Perm value
    unfold toggleTwice toggleChoice
    simp only [Bool.false_eq_true, if_false, if_true]
    simpa [hff] using hvperm
  · show (toggleTwice value cc c false true).2.1.Perm cc
    unfold toggleTwice toggleChoice
    simp only [Bool.false_eq_true, if_false, if_true]
    simpa [hffc, hceq] using hcperm

/-- One toggle never leaves more than one entry for the toggled value, in
either list: toggling two distinct choice objects with deep-equal values can
never produce duplicates. -/
theorem toggle_no_duplicates (value : List Value) (cc : List Choice)
    (c : Choice) (chk : Bool) :
    (toggleChoice value cc c chk).1.count c.value ≤ 1 ∧
    (toggleChoice value cc c chk).2.1.countP
      (fun e => decide (e.value = c.value)) ≤ 1 := by
  have hv0 : (value.filter (fun x => !decide (x = c.value))).count c.value = 0 := by
    apply List.count_eq_zero.mpr
    intro hmem
    have := List.of_mem_filter hmem
    simp at this
  have hc0 : (cc.filter (fun e => !decide (e.value = c.value))).countP
      (fun e => decide (e.value = c.value)) = 0 := by
    apply List.countP_eq_zero.mpr
    intro e he
    have := List.of_mem_filter he
    simpa using this
  unfold toggleChoice
  cases chk
  · simp [hv0, hc0]
  · simp only [if_true]
    constructor
    · rw [List.count_append, hv0]
      simp [List.count_singleton]
    · rw [List.countP_append, hc0]
      simp [List.countP_cons]

/-- C8, amended: `toggleChoice` is an idempotent set operation on selection
states whose entries for the toggled value are not duplicated: (1) toggling
a choice absent from the selection on and then off restores both lists
exactly; (2) toggling a selected choice — one selection entry deep-equal to
its value, whose `checkedChoices` entry is the choice itself — off and back
on restores both lists up to order; (3) unconditionally, a toggle leaves at
most one entry for the toggled value in each list, so toggling two distinct
choice objects with deep-equal values never produces duplicates.  (The
original claim quantified over every starting state; the counterexample
shows it fails when the starting selection already holds a value twice.) -/
theorem toggle_idempotent_set (value : List Value) (cc : List Choice)
    (c : Choice) :
    ((c.value ∉ value) → (∀ e ∈ cc, e.value ≠ c.value) →
      (toggleTwice value cc c true false).1 = value ∧
      (toggleTwice value cc c true false).2.1 = cc) ∧
    ((value.filter (fun x => decide (x = c.value)) = [c.value]) →
     (cc.filter (fun e => decide (e.value = c.value)) = [c]) →
     c.checked = true →
      (toggleTwice value cc c false true).1.Perm value ∧
      (toggleTwice value cc c false true).2.1.Perm cc) ∧
    (∀ chk : Bool,
      (toggleChoice value cc c chk).1.count c.value ≤ 1 ∧
      (toggleChoice value cc c chk).2.1.countP
        (fun e => decide (e.value = c.value)) ≤ 1) :=
  ⟨toggle_round_trip_A value cc c,
   toggle_round_trip_B value cc c,
   toggle_no_duplicates value cc c⟩

/-- Witness for the amended C8 at concrete inputs. -/
theorem toggle_idempotent_set_witness :
    (c8v ∉ ([] : List Value)) ∧
    ((toggleTwice [] [] c8c true false).1 = [] ∧
     (toggleTwice [] [] c8c true false).2.1 = []) ∧
    ((toggleChoice [c8v] [c8c] c8c true).1.count c8c.value ≤ 1) := by
  refine ⟨by decide, ?_, ?_⟩
  · exact (toggle_idempotent_set [] [] c8c).1 (by decide) (by decide)
  · exact ((toggle_idempotent_set [c8v] [c8c] c8c).2.2 true).1

/-! ## C9 -/

/-- C9: configuration errors are raised at setup or first use.  The
constructor raises the missing-parameter error when no `source` option is
supplied; and with `searchable` enabled and a non-function source, the first
`executeSource` call (fresh state: no `lastQuery` recorded yet, so the no-op
shortcut cannot fire) throws the searchable-source error. -/
theorem configuration_errors_fatal (raw : RawOpts) (st : PromptState)
    (cs : List Choice) :
    (raw.source = none → mkPrompt raw = .error "source") ∧
    (st.opts.searchable = true → st.opts.source = .static_ cs →
     st.lastQuery = none →
      executeSource st =
        .error "To be searchable, the source must be a function returing a promise") := by
  constructor
  · intro h
    unfold mkPrompt
    rw [h]
  · intro hs hsrc hq
    unfold executeSource
    rw [hq]
    simp [hs, hsrc]

/-- Witness for C9 at concrete inputs. -/
theorem configuration_errors_fatal_witness :
    w9Raw.source = none ∧ mkPrompt w9Raw = .error "source" ∧
    executeSource w9St =
      .error "To be searchable, the source must be a function returing a promise" := by
  refine ⟨by decide, ?_, ?_⟩
  · exact (configuration_errors_fatal w9Raw w9St []).1 (by decide)
  · exact (configuration_errors_fatal w9Raw w9St []).2 (by decide) (by decide)
      (by decide)

/-! ## C10 -/

/-- C10: a bound of `0` imposes no constraint.  The constructor defaults an
unset `minimumChoices` to `0`, and because the composed validator tests the
decomposed bounds with JavaScript truthiness, a minimum of `0` (bare or as a
`[0, message]` pair) validates exactly like no minimum at all, and a maximum
of `0` exactly like no maximum — for every answer list, empty or arbitrarily
large. -/
theorem zero_bound_no_constraint (raw : RawOpts) (st : PromptState)
    (msg : String) (minC maxC : Option Criteria)
    (optV : Option (List Value → ValidateResult)) (answer : List Value) :
    (raw.minimumChoices = none → mkPrompt raw = .ok st →
      st.opts.minimumChoices = some (.num 0)) ∧
    (alterValidator (some (.num 0)) maxC optV answer =
      alterValidator none maxC optV answer) ∧
    (alterValidator (some (.pair 0 msg)) maxC optV answer =
      alterValidator none maxC optV answer) ∧
    (alterValidator minC (some (.num 0)) optV answer =
      alterValidator minC none optV answer) ∧
    (alterValidator minC (some (.pair 0 msg)) optV answer =
      alterValidator minC none optV answer) := by
  refine ⟨?_, ?_, ?_, ?_, ?_⟩
  · intro hmin hok
    unfold mkPrompt at hok
    rw [hmin] at hok
    cases hsrc : raw.source with
    | none => rw [hsrc] at hok; simp at hok
    | some s =>
      rw [hsrc] at hok
      simp only [Except.ok.injEq] at hok
      rw [← hok]
      rfl
  · unfold alterValidator
    simp [decomposeCriteria, numTruthy]
  · unfold alterValidator
    simp [decomposeCriteria, numTruthy]
  · unfold alterValidator
    simp [decomposeCriteria, numTruthy]
  · unfold alterValidator
    simp [decomposeCriteria, numTruthy]

/-- Witness for C10 at concrete inputs. -/
theorem zero_bound_no_constraint_witness :
    w10Raw.minimumChoices = none ∧ mkPrompt w10Raw = .ok w10St ∧
    w10St.opts.minimumChoices = some (.num 0) ∧
    alterValidator (some (.num 0)) none none [] =
      alterValidator none none none [] := by
  refine ⟨by decide, by rfl, ?_, ?_⟩
  · exact (zero_bound_no_constraint w10Raw w10St "m" none none none []).1
      (by decide) (by rfl)
  · exact (zero_bound_no_constraint w10Raw w10St "m" none none none []).2.1

end CheckboxPlus
